import Mathlib

/-
Shallow embedding of the IceSheetService backend (src/python-backend/app.py).

Modelling conventions:
  * Python float (IEEE 754 binary64) values are modelled as exact rationals
    (ℚ); the decimal literals of the source are represented exactly, and the
    arithmetic structure of each computation is preserved.
  * The two module-level counters (request_counter, concurrent_counter) and
    the mutex around them are modelled as an explicit state record `Counters`
    threaded through the stateful functions; Python ints are unbounded, so
    the counters are ℤ.
  * Exceptions are modelled with `Except String`; the `try/finally` of
    calculate_mass_loss is modelled by applying `decrement_concurrent`
    to the post-increment state unconditionally, independent of the body's
    Except outcome, exactly as `finally` guarantees.
  * HTTP responses are a status code plus either a success payload or the
    error envelope `create_error_response` builds.  The `timestamp` field
    (Python `time.time()`) is wall-clock time and is omitted from the model;
    logging is likewise omitted.  `request.path` is reconstructed from the
    route pattern and the raw path parameter.
  * Python `str.upper()` and `str.strip()` are modelled for the ASCII
    character range (`pyUpperChar`, `isPyWhitespace`); all enumerator value
    strings are ASCII.
-/

inductive IceSheetType where
  | GREENLAND
  | ANTARCTICA
deriving DecidableEq, Repr

inductive TimePeriod where
  | ANNUAL
  | DECADE
  | CENTURY
deriving DecidableEq, Repr

/-- The `.value` of each `TimePeriod` enum member (its string form). -/
def TimePeriod.value : TimePeriod → String
  | .ANNUAL => "ANNUAL"
  | .DECADE => "DECADE"
  | .CENTURY => "CENTURY"

/-- Base data for ice sheets with constants (dataclass IceSheetBaseData). -/
structure IceSheetBaseData where
  size_km2 : ℚ
  melting_rate_kg_per_second : ℚ
  ambient_temperature : ℚ
  name : String
deriving DecidableEq, Repr

/-- Constants for ice sheet base data (app.py lines 47-60), as the
key/value pairs of the Python dict. -/
def ICE_SHEET_DATA : List (IceSheetType × IceSheetBaseData) :=
  [(IceSheetType.ANTARCTICA,
    { size_km2 := 14000000.0
      melting_rate_kg_per_second := -26.9982036
      ambient_temperature := -57.0
      name := "Antarctica" }),
   (IceSheetType.GREENLAND,
    { size_km2 := 4380000.0
      melting_rate_kg_per_second := -4.364067
      ambient_temperature := -29.45
      name := "Greenland" })]

/-- Time period conversions (app.py lines 63-67); the dict has exactly one
integer entry per enumerator value. -/
def TIME_PERIOD_SECONDS : TimePeriod → ℤ
  | .ANNUAL => 31536000
  | .DECADE => 315360000
  | .CENTURY => 3153600000

/-- The process-wide counter pair guarded by counter_lock
(app.py lines 24-27), initialised to zero at process start. -/
structure Counters where
  request_counter : ℤ
  concurrent_counter : ℤ
deriving DecidableEq, Repr

/-- Thread-safe counter increment (app.py lines 69-75): increments both
counters in one critical section and returns the new request count. -/
def increment_counters (s : Counters) : Counters × ℤ :=
  ({ request_counter := s.request_counter + 1
     concurrent_counter := s.concurrent_counter + 1 },
   s.request_counter + 1)

/-- Thread-safe concurrent counter decrement (app.py lines 77-81). -/
def decrement_concurrent (s : Counters) : Counters :=
  { s with concurrent_counter := s.concurrent_counter - 1 }

/-- Get base data for a specific ice sheet type (app.py lines 83-87): the
membership test on ICE_SHEET_DATA followed by indexing is a single lookup;
a missing key raises ValueError. -/
def get_base_data (t : IceSheetType) : Except String IceSheetBaseData :=
  match ICE_SHEET_DATA.lookup t with
  | some d => Except.ok d
  | none => Except.error ("Unknown ice sheet type")

/-- Convert time period to seconds (app.py lines 89-91): `float(...)` of
the integer table entry. -/
def convert_period_to_seconds (p : TimePeriod) : ℚ :=
  (TIME_PERIOD_SECONDS p : ℚ)

/-- The result dict built by calculate_mass_loss (app.py lines 116-123). -/
structure MassLossResult where
  meltingRate : ℚ
  massLoss : ℚ
  initialSize : ℚ
  finalSize : ℚ
  iceSheetName : String
  period : String
deriving DecidableEq, Repr

/-- Calculate mass loss and visualization statistics (app.py lines 93-132).
Increments both counters on entry; the try-body computes the result dict;
the `finally` applies decrement_concurrent to the post-increment state no
matter how the body exits (its Except value is returned either way). -/
def calculate_mass_loss (s : Counters) (t : IceSheetType) (p : TimePeriod) :
    Except String MassLossResult × Counters :=
  let s1 := (increment_counters s).1
  let body : Except String MassLossResult := do
    let base_data ← get_base_data t
    let time_in_seconds := convert_period_to_seconds p
    let mass_loss := time_in_seconds * |base_data.melting_rate_kg_per_second|
    let initial_size := base_data.size_km2
    let final_size := initial_size - mass_loss
    Except.ok
      { meltingRate := base_data.melting_rate_kg_per_second
        massLoss := mass_loss
        initialSize := initial_size
        finalSize := final_size
        iceSheetName := base_data.name
        period := p.value }
  (body, decrement_concurrent s1)

/-- Standardized error response (app.py lines 134-141); the wall-clock
`timestamp` field is omitted from the model. -/
structure ErrorResponse where
  error : String
  message : String
  path : String
deriving DecidableEq, Repr

def create_error_response (error_type : String) (message : String)
    (path : String) : ErrorResponse :=
  { error := error_type, message := message, path := path }

/-- An HTTP response: a 200 payload or a non-200 error envelope. -/
inductive HResp (α : Type) where
  | ok : α → HResp α
  | fail : Nat → ErrorResponse → HResp α
deriving DecidableEq, Repr

def HResp.status {α : Type} : HResp α → Nat
  | .ok _ => 200
  | .fail n _ => n

/-- ASCII model of Python `str.upper()` on one character. -/
def pyUpperChar (c : Char) : Char :=
  if 97 ≤ c.toNat ∧ c.toNat ≤ 122 then Char.ofNat (c.toNat - 32) else c

/-- ASCII model of Python `str.upper()`. -/
def pyUpper (s : String) : String :=
  String.mk (s.data.map pyUpperChar)

/-- The ASCII characters Python `str.strip()` removes:
space, tab, newline, carriage return, vertical tab, form feed. -/
def isPyWhitespace (c : Char) : Bool :=
  decide (c.toNat = 32 ∨ c.toNat = 9 ∨ c.toNat = 10 ∨ c.toNat = 13 ∨
    c.toNat = 11 ∨ c.toNat = 12)

/-- The handlers' validation test `not s or s.strip() == ""`:
true exactly when the string is empty or whitespace-only. -/
def isBlank (s : String) : Bool :=
  s.data.isEmpty || s.data.all isPyWhitespace

/-- Python `IceSheetType(s.upper())`: enum lookup by value string,
raising (modelled as `none`) when no member matches. -/
def parseIceSheet (s : String) : Option IceSheetType :=
  if pyUpper s = "GREENLAND" then some IceSheetType.GREENLAND
  else if pyUpper s = "ANTARCTICA" then some IceSheetType.ANTARCTICA
  else none

/-- Python `TimePeriod(s.upper())`: enum lookup by value string. -/
def parseTimePeriod (s : String) : Option TimePeriod :=
  if pyUpper s = "ANNUAL" then some TimePeriod.ANNUAL
  else if pyUpper s = "DECADE" then some TimePeriod.DECADE
  else if pyUpper s = "CENTURY" then some TimePeriod.CENTURY
  else none

/-- Falsy-or-blank test on an optional query parameter
(`request.args.get` yields None when absent, and None is falsy). -/
def isBlankOpt : Option String → Bool
  | none => true
  | some s => isBlank s

/-- Enum parse of an optional query parameter (only reached when the
parameter is present, but total for convenience of statement). -/
def parsePeriodOpt : Option String → Option TimePeriod
  | none => none
  | some s => parseTimePeriod s

/-- The success payload of the details endpoint (app.py lines 174-178). -/
structure DetailResult where
  currentSize : ℚ
  ambientTemperature : ℚ
  meltingRate : ℚ
deriving DecidableEq, Repr

def detailsPath (ice_sheet : String) : String :=
  "/api/icesheet/" ++ ice_sheet ++ "/details"

def visualizationPath (ice_sheet : String) : String :=
  "/api/icesheet/" ++ ice_sheet ++ "/visualization"

/-- GET /api/icesheet/<ice_sheet>/details (app.py lines 143-191).
Validation, enum parse, then a pure read of the constants; the enclosing
`except` turns any body failure into a 500 envelope.  The handler never
touches the counters; the state is returned unchanged on every path. -/
def get_detail_statistics (c : Counters) (ice_sheet : String) :
    HResp DetailResult × Counters :=
  if isBlank ice_sheet then
    (HResp.fail 400 (create_error_response ("INVALID_INPUT")
      ("Ice sheet parameter cannot be null or empty. Valid values: GREENLAND, ANTARCTICA")
      (detailsPath ice_sheet)), c)
  else
    match parseIceSheet ice_sheet with
    | none =>
      (HResp.fail 400 (create_error_response ("INVALID_ICE_SHEET")
        ("Invalid ice sheet type: '" ++ ice_sheet ++ "'. Valid values: GREENLAND, ANTARCTICA")
        (detailsPath ice_sheet)), c)
    | some t =>
      match get_base_data t with
      | Except.ok base_data =>
        (HResp.ok
          { currentSize := base_data.size_km2
            ambientTemperature := base_data.ambient_temperature
            meltingRate := base_data.melting_rate_kg_per_second }, c)
      | Except.error _ =>
        (HResp.fail 500 (create_error_response ("INTERNAL_ERROR")
          ("An unexpected error occurred while processing the request. Please try again later.")
          (detailsPath ice_sheet)), c)

/-- GET /api/icesheet/<ice_sheet>/visualization?period=P
(app.py lines 193-252).  Validation short-circuits in source order:
blank ice sheet, blank/absent period, unparseable ice sheet, unparseable
period; then calculate_mass_loss runs (updating the counters), and the
enclosing `except` turns a body failure into a 500 envelope. -/
def get_visualization_statistics (c : Counters) (ice_sheet : String)
    (period : Option String) : HResp MassLossResult × Counters :=
  if isBlank ice_sheet then
    (HResp.fail 400 (create_error_response ("INVALID_INPUT")
      ("Ice sheet parameter cannot be null or empty. Valid values: GREENLAND, ANTARCTICA")
      (visualizationPath ice_sheet)), c)
  else if isBlankOpt period then
    (HResp.fail 400 (create_error_response ("INVALID_INPUT")
      ("Period parameter cannot be null or empty. Valid values: CENTURY, DECADE, ANNUAL")
      (visualizationPath ice_sheet)), c)
  else
    match parseIceSheet ice_sheet with
    | none =>
      (HResp.fail 400 (create_error_response ("INVALID_PARAMETER")
        ("Invalid ice sheet type: '" ++ ice_sheet ++ "'. Valid values: GREENLAND, ANTARCTICA")
        (visualizationPath ice_sheet)), c)
    | some t =>
      match parsePeriodOpt period with
      | none =>
        (HResp.fail 400 (create_error_response ("INVALID_PARAMETER")
          ("Invalid time period: '" ++ (period.getD ("")) ++ "'. Valid values: CENTURY, DECADE, ANNUAL")
          (visualizationPath ice_sheet)), c)
      | some p =>
        let r := calculate_mass_loss c t p
        match r.1 with
        | Except.ok statistics => (HResp.ok statistics, r.2)
        | Except.error _ =>
          (HResp.fail 500 (create_error_response ("INTERNAL_ERROR")
            ("An unexpected error occurred while processing the request. Please try again later.")
            (visualizationPath ice_sheet)), r.2)

/-- The health endpoint's success payload (app.py lines 262-267). -/
structure HealthResult where
  status : String
  totalCalculatorRequests : ℤ
  currentConcurrentRequests : ℤ
  totalDataServiceRequests : ℤ
deriving DecidableEq, Repr

/-- GET /api/icesheet/health (app.py lines 254-275): reads both counters
in one critical section (here: one snapshot of the state) and reports
them; `totalDataServiceRequests` repeats the single request counter. -/
def get_health_status (c : Counters) : HealthResult :=
  { status := "UP"
    totalCalculatorRequests := c.request_counter
    currentConcurrentRequests := c.concurrent_counter
    totalDataServiceRequests := c.request_counter }

lemma pyUpperChar_toNat (c : Char) :
    (pyUpperChar c).toNat =
      if 97 ≤ c.toNat ∧ c.toNat ≤ 122 then c.toNat - 32 else c.toNat := by
  unfold pyUpperChar
  split
  · next h =>
    have hv : Nat.isValidChar (c.toNat - 32) := Or.inl (by omega)
    show (Char.ofNat (c.toNat - 32)).toNat = c.toNat - 32
    unfold Char.ofNat
    rw [dif_pos hv]
    rfl
  · rfl

lemma isPyWhitespace_eq_of_upper_eq {c d : Char}
    (h : pyUpperChar c = pyUpperChar d) :
    isPyWhitespace c = isPyWhitespace d := by
  have h' : (pyUpperChar c).toNat = (pyUpperChar d).toNat := congrArg Char.toNat h
  rw [pyUpperChar_toNat, pyUpperChar_toNat] at h'
  unfold isPyWhitespace
  rw [decide_eq_decide]
  split at h' <;> split at h' <;> omega

lemma all_isPyWhitespace_eq : ∀ {l1 l2 : List Char},
    l1.map pyUpperChar = l2.map pyUpperChar →
    l1.all isPyWhitespace = l2.all isPyWhitespace
  | [], [], _ => rfl
  | [], _ :: _, h => by simp at h
  | _ :: _, [], h => by simp at h
  | c :: cs, d :: ds, h => by
    simp only [List.map_cons, List.cons.injEq] at h
    simp only [List.all_cons, isPyWhitespace_eq_of_upper_eq h.1,
      all_isPyWhitespace_eq h.2]

lemma isBlank_eq_of_upper_eq {s t : String}
    (h : s.data.map pyUpperChar = t.data.map pyUpperChar) :
    isBlank s = isBlank t := by
  have hlen : s.data.length = t.data.length := by
    have h2 := congrArg List.length h
    simpa using h2
  have he : s.data.isEmpty = t.data.isEmpty := by
    cases hs : s.data <;> cases ht : t.data <;> rw [hs, ht] at hlen <;> simp_all
  unfold isBlank
  rw [all_isPyWhitespace_eq h, he]

lemma calc_counters (c : Counters) (t : IceSheetType) (p : TimePeriod) :
    (calculate_mass_loss c t p).2.request_counter = c.request_counter + 1 ∧
    (calculate_mass_loss c t p).2.concurrent_counter = c.concurrent_counter := by
  constructor <;>
    simp [calculate_mass_loss, increment_counters, decrement_concurrent]

lemma detail_state_unchanged (c : Counters) (sheet : String) :
    (get_detail_statistics c sheet).2 = c := by
  unfold get_detail_statistics
  split
  · rfl
  · split
    · rfl
    · split <;> rfl

/-- Claim C1: for every valid (ice sheet, period) pair, calculate_mass_loss
returns a result whose massLoss equals TIME_PERIOD_SECONDS of the period
multiplied by the absolute value of that sheet's melting-rate constant, and
whose finalSize equals that sheet's initial size minus massLoss (the
source's float64 arithmetic is modelled by exact rational arithmetic). -/
theorem c1_mass_loss_formula (c : Counters) (t : IceSheetType) (p : TimePeriod) :
    ∃ base_data r, get_base_data t = Except.ok base_data ∧
      (calculate_mass_loss c t p).1 = Except.ok r ∧
      r.massLoss = (TIME_PERIOD_SECONDS p : ℚ) *
        |base_data.melting_rate_kg_per_second| ∧
      r.finalSize = base_data.size_km2 - r.massLoss := by
  cases t <;> cases p <;> exact ⟨_, _, rfl, rfl, rfl, rfl⟩

/-- Claim C2 counterexample: a details request for "antarctica" completes
successfully (HTTP 200, so it reached the constant-lookup step), yet the
total-requests counter stays at its prior value 0 instead of increasing
by exactly 1. -/
theorem c2_counterexample_details_no_increment :
    (get_detail_statistics ⟨0, 0⟩ ("antarctica")).1.status = 200 ∧
    (get_detail_statistics ⟨0, 0⟩ ("antarctica")).2.request_counter = 0 ∧
    (get_detail_statistics ⟨0, 0⟩ ("antarctica")).2.request_counter ≠ 0 + 1 :=
  ⟨by decide, by decide, by decide⟩

/-- Claim C2 (amended): the total-requests counter increases by exactly 1
for every completed visualization request that reaches the calculation
step (whether the calculation succeeds or fails), while a details request
never changes it — the details handler does not touch the counters. -/
theorem c2_total_requests_per_calculation (c : Counters) (sheet : String)
    (per : Option String) (t : IceSheetType) (p : TimePeriod) :
    (get_detail_statistics c sheet).2.request_counter = c.request_counter ∧
    (isBlank sheet = false → isBlankOpt per = false →
      parseIceSheet sheet = some t → parsePeriodOpt per = some p →
      (get_visualization_statistics c sheet per).2.request_counter =
        c.request_counter + 1) := by
  constructor
  · rw [detail_state_unchanged]
  · intro h1 h2 h3 h4
    simp only [get_visualization_statistics, h1, h2, h3, h4,
      Bool.false_eq_true, if_false]
    rcases hr : (calculate_mass_loss c t p).1 with e | stats <;>
      simp [hr, calc_counters c t p]

/-- Claim C3: calculate_mass_loss increments the total-requests counter
and the in-flight counter on entry and decrements the in-flight counter on
every exit path (the decrement is applied to the post-increment state
independently of the body's outcome, as the source's `finally` does), so
the in-flight counter returns to its pre-call value. -/
theorem c3_inflight_restored (c : Counters) (t : IceSheetType) (p : TimePeriod) :
    (calculate_mass_loss c t p).2.request_counter = c.request_counter + 1 ∧
    (calculate_mass_loss c t p).2.concurrent_counter = c.concurrent_counter ∧
    (calculate_mass_loss c t p).2 =
      decrement_concurrent ((increment_counters c).1) :=
  ⟨(calc_counters c t p).1, (calc_counters c t p).2, rfl⟩

/-- Claim C4: for every valid (ice sheet, period) pair, the meltingRate
field of the result equals the original signed (negative) melting-rate
constant, not its absolute value, even though the mass-loss computation
itself uses the absolute value. -/
theorem c4_melting_rate_signed (c : Counters) (t : IceSheetType) (p : TimePeriod) :
    ∃ base_data r, get_base_data t = Except.ok base_data ∧
      (calculate_mass_loss c t p).1 = Except.ok r ∧
      r.meltingRate = base_data.melting_rate_kg_per_second ∧
      base_data.melting_rate_kg_per_second < 0 ∧
      r.meltingRate ≠ |base_data.melting_rate_kg_per_second| ∧
      r.massLoss = convert_period_to_seconds p *
        |base_data.melting_rate_kg_per_second| := by
  cases t <;> cases p <;>
    refine ⟨_, _, rfl, rfl, rfl, by norm_num, ?_, rfl⟩ <;>
    exact ne_of_lt (lt_of_lt_of_le (by norm_num) (abs_nonneg _))

lemma detail_blank_eval (c : Counters) {sheet : String}
    (h : isBlank sheet = true) :
    get_detail_statistics c sheet =
      (HResp.fail 400 (create_error_response ("INVALID_INPUT")
        ("Ice sheet parameter cannot be null or empty. Valid values: GREENLAND, ANTARCTICA")
        (detailsPath sheet)), c) := by
  unfold get_detail_statistics
  rw [if_pos h]

lemma detail_badsheet_eval (c : Counters) {sheet : String}
    (h1 : isBlank sheet = false) (h2 : parseIceSheet sheet = none) :
    get_detail_statistics c sheet =
      (HResp.fail 400 (create_error_response ("INVALID_ICE_SHEET")
        ("Invalid ice sheet type: '" ++ sheet ++ "'. Valid values: GREENLAND, ANTARCTICA")
        (detailsPath sheet)), c) := by
  unfold get_detail_statistics
  rw [if_neg (by simp [h1]), h2]

lemma viz_blank_eval (c : Counters) {sheet : String} (per : Option String)
    (h : isBlank sheet = true) :
    get_visualization_statistics c sheet per =
      (HResp.fail 400 (create_error_response ("INVALID_INPUT")
        ("Ice sheet parameter cannot be null or empty. Valid values: GREENLAND, ANTARCTICA")
        (visualizationPath sheet)), c) := by
  unfold get_visualization_statistics
  rw [if_pos h]

lemma viz_blankper_eval (c : Counters) {sheet : String} {per : Option String}
    (h1 : isBlank sheet = false) (h2 : isBlankOpt per = true) :
    get_visualization_statistics c sheet per =
      (HResp.fail 400 (create_error_response ("INVALID_INPUT")
        ("Period parameter cannot be null or empty. Valid values: CENTURY, DECADE, ANNUAL")
        (visualizationPath sheet)), c) := by
  unfold get_visualization_statistics
  rw [if_neg (by simp [h1]), if_pos h2]

lemma viz_badsheet_eval (c : Counters) {sheet : String} {per : Option String}
    (h1 : isBlank sheet = false) (h2 : isBlankOpt per = false)
    (h3 : parseIceSheet sheet = none) :
    get_visualization_statistics c sheet per =
      (HResp.fail 400 (create_error_response ("INVALID_PARAMETER")
        ("Invalid ice sheet type: '" ++ sheet ++ "'. Valid values: GREENLAND, ANTARCTICA")
        (visualizationPath sheet)), c) := by
  unfold get_visualization_statistics
  rw [if_neg (by simp [h1]), if_neg (by simp [h2]), h3]

lemma viz_badperiod_eval (c : Counters) {sheet : String} {per : Option String}
    {t : IceSheetType} (h1 : isBlank sheet = false) (h2 : isBlankOpt per = false)
    (h3 : parseIceSheet sheet = some t) (h4 : parsePeriodOpt per = none) :
    get_visualization_statistics c sheet per =
      (HResp.fail 400 (create_error_response ("INVALID_PARAMETER")
        ("Invalid time period: '" ++ (per.getD ("")) ++ "'. Valid values: CENTURY, DECADE, ANNUAL")
        (visualizationPath sheet)), c) := by
  unfold get_visualization_statistics
  rw [if_neg (by simp [h1]), if_neg (by simp [h2]), h3, h4]

/-- Claim C5: a details or visualization request whose ice-sheet or period
parameter is empty, whitespace-only, missing, or outside its enumerator
gets HTTP 400 with the matching error kind — INVALID_INPUT for
blank/missing, INVALID_ICE_SHEET (details) or INVALID_PARAMETER
(visualization) for unparseable values — and never HTTP 500. -/
theorem c5_invalid_params_yield_400 (c : Counters) (sheet : String)
    (per : Option String) :
    (isBlank sheet = true →
      ∃ e, (get_detail_statistics c sheet).1 = HResp.fail 400 e ∧
        e.error = "INVALID_INPUT") ∧
    (isBlank sheet = false → parseIceSheet sheet = none →
      ∃ e, (get_detail_statistics c sheet).1 = HResp.fail 400 e ∧
        e.error = "INVALID_ICE_SHEET") ∧
    (isBlank sheet = true →
      ∃ e, (get_visualization_statistics c sheet per).1 = HResp.fail 400 e ∧
        e.error = "INVALID_INPUT") ∧
    (isBlank sheet = false → isBlankOpt per = true →
      ∃ e, (get_visualization_statistics c sheet per).1 = HResp.fail 400 e ∧
        e.error = "INVALID_INPUT") ∧
    (isBlank sheet = false → isBlankOpt per = false → parseIceSheet sheet = none →
      ∃ e, (get_visualization_statistics c sheet per).1 = HResp.fail 400 e ∧
        e.error = "INVALID_PARAMETER") ∧
    (isBlank sheet = false → isBlankOpt per = false → parsePeriodOpt per = none →
      ∃ e, (get_visualization_statistics c sheet per).1 = HResp.fail 400 e ∧
        e.error = "INVALID_PARAMETER") ∧
    ((isBlank sheet = true ∨ parseIceSheet sheet = none) →
      (get_detail_statistics c sheet).1.status ≠ 500) ∧
    ((isBlank sheet = true ∨ isBlankOpt per = true ∨ parseIceSheet sheet = none ∨
        parsePeriodOpt per = none) →
      (get_visualization_statistics c sheet per).1.status ≠ 500) := by
  refine ⟨?_, ?_, ?_, ?_, ?_, ?_, ?_, ?_⟩
  · intro h
    exact ⟨_, by rw [detail_blank_eval c h], rfl⟩
  · intro h1 h2
    exact ⟨_, by rw [detail_badsheet_eval c h1 h2], rfl⟩
  · intro h
    exact ⟨_, by rw [viz_blank_eval c per h], rfl⟩
  · intro h1 h2
    exact ⟨_, by rw [viz_blankper_eval c h1 h2], rfl⟩
  · intro h1 h2 h3
    exact ⟨_, by rw [viz_badsheet_eval c h1 h2 h3], rfl⟩
  · intro h1 h2 h4
    rcases h3 : parseIceSheet sheet with _ | t
    · exact ⟨_, by rw [viz_badsheet_eval c h1 h2 h3], rfl⟩
    · exact ⟨_, by rw [viz_badperiod_eval c h1 h2 h3 h4], rfl⟩
  · rintro (h | h)
    · rw [detail_blank_eval c h]
      simp [HResp.status]
    · cases h1 : isBlank sheet
      · rw [detail_badsheet_eval c h1 h]
        simp [HResp.status]
      · rw [detail_blank_eval c h1]
        simp [HResp.status]
  · intro h
    cases h1 : isBlank sheet
    · cases h2 : isBlankOpt per
      · rcases h3 : parseIceSheet sheet with _ | t
        · rw [viz_badsheet_eval c h1 h2 h3]
          simp [HResp.status]
        · rcases h4 : parsePeriodOpt per with _ | p
          · rw [viz_badperiod_eval c h1 h2 h3 h4]
            simp [HResp.status]
          · rcases h with h | h | h | h <;> simp_all
      · rw [viz_blankper_eval c h1 h2]
        simp [HResp.status]
    · rw [viz_blank_eval c per h1]
      simp [HResp.status]

/-- Claim C5 witness: concrete invalid inputs — an unknown ice sheet on the
details endpoint, a whitespace-only ice sheet on the visualization
endpoint, and an unknown period on the visualization endpoint. -/
theorem c5_invalid_params_witness :
    (∃ e, (get_detail_statistics ⟨0, 0⟩ ("mars")).1 = HResp.fail 400 e ∧
      e.error = "INVALID_ICE_SHEET") ∧
    (∃ e, (get_visualization_statistics ⟨0, 0⟩ (" ") (some ("ANNUAL"))).1 =
      HResp.fail 400 e ∧ e.error = "INVALID_INPUT") ∧
    (∃ e, (get_visualization_statistics ⟨0, 0⟩ ("greenland") (some ("weekly"))).1 =
      HResp.fail 400 e ∧ e.error = "INVALID_PARAMETER") :=
  ⟨(c5_invalid_params_yield_400 ⟨0, 0⟩ ("mars") none).2.1 (by decide) (by decide),
   (c5_invalid_params_yield_400 ⟨0, 0⟩ (" ") (some ("ANNUAL"))).2.2.1 (by decide),
   (c5_invalid_params_yield_400 ⟨0, 0⟩ ("greenland") (some ("weekly"))).2.2.2.2.2.1
     (by decide) (by decide) (by decide)⟩

/-- Claim C2 witness: with the counter at 5, a details request leaves it
at 5, while a valid visualization request raises it to 6. -/
theorem c2_total_requests_witness :
    (get_detail_statistics ⟨5, 2⟩ ("greenland")).2.request_counter =
      (Counters.mk 5 2).request_counter ∧
    (get_visualization_statistics ⟨5, 2⟩ ("greenland") (some ("ANNUAL"))).2.request_counter =
      (Counters.mk 5 2).request_counter + 1 := by
  have h := c2_total_requests_per_calculation ⟨5, 2⟩ ("greenland")
    (some ("ANNUAL")) IceSheetType.GREENLAND TimePeriod.ANNUAL
  exact ⟨h.1, h.2 (by decide) (by decide) (by decide) (by decide)⟩

/-- Claim C6: get_base_data is total over the enumerator — every member of
IceSheetType has a record in ICE_SHEET_DATA, so the lookup succeeds and
the ValueError branch is unreachable for enumerator arguments. -/
theorem c6_get_base_data_total (t : IceSheetType) :
    ∃ d, get_base_data t = Except.ok d ∧ ICE_SHEET_DATA.lookup t = some d := by
  cases t <;> exact ⟨_, rfl, rfl⟩

/-- Claim C7: parameter resolution is case-insensitive — two strings with
the same letters up to case (equal images under the upper-casing map)
parse to the same ice sheet, the same period, and the same blankness
verdict; in particular "greenland", "GREENLAND" and "GreenLand" produce
identical responses on both endpoints. -/
theorem c7_case_insensitive (c : Counters) :
    (∀ s t : String, s.data.map pyUpperChar = t.data.map pyUpperChar →
      parseIceSheet s = parseIceSheet t ∧ parseTimePeriod s = parseTimePeriod t ∧
      isBlank s = isBlank t) ∧
    get_detail_statistics c ("greenland") = get_detail_statistics c ("GREENLAND") ∧
    get_detail_statistics c ("GreenLand") = get_detail_statistics c ("GREENLAND") ∧
    get_visualization_statistics c ("greenland") (some ("annual")) =
      get_visualization_statistics c ("GREENLAND") (some ("ANNUAL")) := by
  refine ⟨?_, rfl, rfl, rfl⟩
  intro s t h
  have hu : pyUpper s = pyUpper t := congrArg String.mk h
  refine ⟨?_, ?_, isBlank_eq_of_upper_eq h⟩
  · unfold parseIceSheet
    rw [hu]
  · unfold parseTimePeriod
    rw [hu]

/-- Claim C7 witness: "GreenLand" and "GREENLAND" resolve to the same ice
sheet, "annual" and "ANNUAL" to the same period, with the same blankness
verdict. -/
theorem c7_case_insensitive_witness :
    parseIceSheet ("GreenLand") = parseIceSheet ("GREENLAND") ∧
    parseTimePeriod ("annual") = parseTimePeriod ("ANNUAL") ∧
    isBlank ("GreenLand") = isBlank ("GREENLAND") := by
  have h1 := (c7_case_insensitive ⟨0, 0⟩).1 ("GreenLand") ("GREENLAND") (by decide)
  have h2 := (c7_case_insensitive ⟨0, 0⟩).1 ("annual") ("ANNUAL") (by decide)
  exact ⟨h1.1, h2.2.1, h1.2.2⟩

/-- Claim C8: the health endpoint reports status "UP" with
totalCalculatorRequests and totalDataServiceRequests both equal to the
single request counter and currentConcurrentRequests equal to the
in-flight counter, from one snapshot of the counter state. -/
theorem c8_health_report (c : Counters) :
    get_health_status c =
      { status := "UP"
        totalCalculatorRequests := c.request_counter
        currentConcurrentRequests := c.concurrent_counter
        totalDataServiceRequests := c.request_counter } ∧
    (get_health_status c).totalDataServiceRequests =
      (get_health_status c).totalCalculatorRequests :=
  ⟨rfl, rfl⟩

/-- Claim C9: a details request for Antarctica returns exactly the
Antarctica constant record: currentSize 14000000.0, ambientTemperature
-57.0, meltingRate -26.9982036. -/
theorem c9_antarctica_details (c : Counters) :
    (get_detail_statistics c ("antarctica")).1 =
      HResp.ok
        { currentSize := 14000000.0
          ambientTemperature := -57.0
          meltingRate := -26.9982036 } := rfl

/-- Claim C10: the details handler never modifies the request counters —
for every input the counter state after the request equals the state
before it, in both components. -/
theorem c10_details_counters_frame (c : Counters) (sheet : String) :
    (get_detail_statistics c sheet).2 = c ∧
    (get_detail_statistics c sheet).2.request_counter = c.request_counter ∧
    (get_detail_statistics c sheet).2.concurrent_counter = c.concurrent_counter :=
  ⟨detail_state_unchanged c sheet,
   by rw [detail_state_unchanged],
   by rw [detail_state_unchanged]⟩
